import Mathlib

/-!
Shallow embedding of the BibleWisdom-AI request/response core:
the retry wrappers (`callWithRetry` in `src/services/geminiService.ts` and
`src/services/aiService.ts`), the two provider clients, and the dispatcher.

Modelling conventions:
* A thrown JS error is represented by its message string; `error.message || ""`
  and the stringified error used for classification are both that string.
* An async operation that is invoked repeatedly is an oracle `Nat → Except String α`:
  the value of `fn k` is what the k-th invocation of the wrapped operation does
  (resolve with a value, or reject with an error whose message is given).
* `Math.random() * 1000` is an oracle `jitter : Nat → Nat` giving the jitter in
  milliseconds drawn before the wait that follows the failure of attempt `k`;
  faithfulness to `Math.random()` is the hypothesis `jitter k < 1000`.
* `setTimeout` waits are recorded in a trace (list of delays in ms) rather than
  performed; invocation counts are recorded alongside results.
* A JS object field that may be `undefined` is an `Option String` (`none` =
  absent). `x || d` on strings is `jsOr`, which treats `none` and `""` as falsy.
-/

namespace BibleWisdom

/-- A JS value of the result shape: four content fields plus optional `error`.
`none` models an absent (`undefined`) field, `some s` a present string field. -/
structure JSResponse where
  answer : Option String
  reference : Option String
  topic : Option String
  explanation : Option String
  error : Option String
deriving DecidableEq, Repr

/-- JS `v || d` for a possibly-absent string `v`: absent and `""` are falsy. -/
def jsOr (v : Option String) (d : String) : String :=
  match v with
  | none => d
  | some s => if s = "" then d else s

/-- Holds when, for `isPrefixL sub l`, the char list `sub` is an initial segment of `l`. -/
def isPrefixL : List Char → List Char → Bool
  | [], _ => true
  | _ :: _, [] => false
  | a :: as, b :: bs => a == b && isPrefixL as bs

/-- Holds when, for `containsSub sub l`, the char list `sub` occurs contiguously in `l`. -/
def containsSub (sub : List Char) : List Char → Bool
  | [] => isPrefixL sub []
  | c :: rest => isPrefixL sub (c :: rest) || containsSub sub rest

/-- JS `s.includes(sub)` on strings. -/
def strContains (s sub : String) : Bool := containsSub sub.data s.data

/-- How one run of a retry wrapper ends: a value returned from a successful
invocation, an error re-raised from inside the loop body, or the trailing
`throw lastError` after the loop (it carries the recorded last error, `none`
when no iteration ever ran). -/
inductive RetryOutcome (α : Type) where
  | success : α → RetryOutcome α
  | thrown : String → RetryOutcome α
  | exhausted : Option String → RetryOutcome α
deriving DecidableEq, Repr

/-- Trace of one run of a retry wrapper: its outcome, how many times the
wrapped operation was invoked, and the backoff delays (ms) actually waited. -/
structure RetryTrace (α : Type) where
  outcome : RetryOutcome α
  calls : Nat
  delays : List Nat
deriving DecidableEq, Repr

/-- The shared loop shape of both `callWithRetry` variants
(`for (attempt = 0; attempt < maxRetries; attempt++) ... try/catch`),
parameterized by the variant's transient test and its delay formula.
`fuel` is the number of loop iterations still allowed
(`maxRetries - attempt`); `lastError` is the `lastError` variable. -/
def retryGo {α : Type} (retryable : String → Bool) (delay : Nat → Nat)
    (fn : Nat → Except String α) (maxRetries : Nat) :
    Nat → Nat → Option String → RetryTrace α
  | _, 0, lastError => ⟨RetryOutcome.exhausted lastError, 0, []⟩
  | attempt, fuel + 1, _ =>
    match fn attempt with
    | Except.ok v => ⟨RetryOutcome.success v, 1, []⟩
    | Except.error e =>
      if retryable e && decide (attempt < maxRetries - 1) then
        let rest := retryGo retryable delay fn maxRetries (attempt + 1) fuel (some e)
        ⟨rest.outcome, rest.calls + 1, delay attempt :: rest.delays⟩
      else ⟨RetryOutcome.thrown e, 1, []⟩

namespace GeminiService

/-- Transient test of `src/services/geminiService.ts`: the message contains
"503", "429", "overloaded" or "fetch". -/
def isRetryableMsg (msg : String) : Bool :=
  strContains msg "503" || strContains msg "429" ||
    strContains msg "overloaded" || strContains msg "fetch"

/-- The delay `Math.pow(2, attempt) * 1000 + Math.random() * 1000` (ms), the random draw
supplied by the `jitter` oracle. -/
def backoffDelay (jitter : Nat → Nat) (attempt : Nat) : Nat :=
  2 ^ attempt * 1000 + jitter attempt

/-- The `callWithRetry` of `src/services/geminiService.ts` (default `maxRetries` is 3). -/
def callWithRetry {α : Type} (fn : Nat → Except String α) (jitter : Nat → Nat)
    (maxRetries : Nat) : RetryTrace α :=
  retryGo isRetryableMsg (backoffDelay jitter) fn maxRetries 0 maxRetries none

end GeminiService

namespace AiService

/-- Transient test of `src/services/aiService.ts`: the message contains
"503" or "429" (no "overloaded", no "fetch" case in this variant). -/
def isRetryableMsg (msg : String) : Bool :=
  strContains msg "503" || strContains msg "429"

/-- The delay `Math.pow(2, attempt) * 1000` (ms), no jitter in this variant. -/
def backoffDelay (attempt : Nat) : Nat := 2 ^ attempt * 1000

/-- The `callWithRetry` of `src/services/aiService.ts` (default `maxRetries` is 3). -/
def callWithRetry {α : Type} (fn : Nat → Except String α)
    (maxRetries : Nat) : RetryTrace α :=
  retryGo isRetryableMsg backoffDelay fn maxRetries 0 maxRetries none

end AiService

/-- The four fields of a parsed provider payload; `none` models a field that
is absent (so `data.field` is `undefined`). -/
structure ContentFields where
  answer : Option String
  reference : Option String
  topic : Option String
  explanation : Option String
deriving DecidableEq, Repr

/-- What `result.text` of a resolved `generateContent` call yields once run
through `JSON.parse(result.text || "\x7b\x7d")`: `missing` when `result.text`
is falsy (so the empty object is parsed), `invalid` when `JSON.parse` throws
with the given message, `parsed` when it yields an object whose four relevant
fields are as given. -/
inductive TextPayload where
  | missing : TextPayload
  | invalid : String → TextPayload
  | parsed : ContentFields → TextPayload
deriving DecidableEq, Repr

namespace GeminiService

/-- The error-message classification in the final `catch` of
`getBibleWisdom` (`src/services/geminiService.ts`): default capacity-busy
message, overridden for 503/overloaded, 429, and fetch messages. -/
def classifyError (msg : String) : String :=
  if strContains msg "503" || strContains msg "overloaded" then
    "Google's AI servers are currently at capacity. Please try again in a few seconds."
  else if strContains msg "429" then
    "Too many requests. Please slow down a bit."
  else if !(msg == "") && strContains msg "fetch" then
    "Connection lost. Please check your internet or VPN."
  else
    "The service is currently busy. Please wait a moment and try again."

/-- The result built by the final `catch` of `getBibleWisdom`. -/
def errorResult (msg : String) : JSResponse :=
  { answer := some "Connection Issue", reference := some "", topic := some "Error",
    explanation := some "", error := some (classifyError msg) }

/-- The success-path result of `getBibleWisdom`: each field defaulted with
`||` to its documented fallback string. -/
def successResult (c : ContentFields) : JSResponse :=
  { answer := some (jsOr c.answer "No scriptural answer found."),
    reference := some (jsOr c.reference "Unknown"),
    topic := some (jsOr c.topic "Wisdom"),
    explanation := some (jsOr c.explanation ""),
    error := none }

/-- The early-return result when `process.env.API_KEY` is empty. -/
def configResult : JSResponse :=
  { answer := some "Error", reference := some "", topic := some "Config",
    explanation := some "", error := some "API Key is missing." }

/-- The `getBibleWisdom` of `src/services/geminiService.ts`. Here `apiKey` is
`process.env.API_KEY || ''`; `api` is the `generateContent` transport oracle
(per invocation index); `jitter` the random-draw oracle. Returns the result
together with the number of transport invocations made. The `exhausted`
branch models the trailing `throw lastError` reaching the outer catch
(unreachable for `maxRetries = 3`, see the totality theorem). -/
def getBibleWisdom (apiKey : String) (api : Nat → Except String TextPayload)
    (jitter : Nat → Nat) : JSResponse × Nat :=
  if apiKey = "" then (configResult, 0)
  else
    let t := callWithRetry api jitter 3
    match t.outcome with
    | RetryOutcome.success TextPayload.missing =>
        (successResult ⟨none, none, none, none⟩, t.calls)
    | RetryOutcome.success (TextPayload.invalid msg) => (errorResult msg, t.calls)
    | RetryOutcome.success (TextPayload.parsed c) => (successResult c, t.calls)
    | RetryOutcome.thrown e => (errorResult e, t.calls)
    | RetryOutcome.exhausted le => (errorResult (le.getD ""), t.calls)

end GeminiService

namespace AiService

/-- The `catch` result of `getGeminiWisdom` (`src/services/aiService.ts`):
the raw error message is placed in the `error` field unchanged. -/
def catchResult (msg : String) : JSResponse :=
  { answer := some "Error", reference := some "", topic := some "Error",
    explanation := some "", error := some msg }

/-- The early-return result of `getGeminiWisdom` when the key is empty. -/
def configResult : JSResponse :=
  { answer := some "Error", reference := some "", topic := some "Config",
    explanation := some "", error := some "Gemini API Key missing." }

/-- The `getGeminiWisdom` of `src/services/aiService.ts`. The success path is
`return JSON.parse(result.text || "\x7b\x7d")`: the parsed object is returned
verbatim, with no per-field fallback, so absent fields stay absent. Returns
the result and the number of transport invocations. -/
def getGeminiWisdom (apiKey : String) (api : Nat → Except String TextPayload) :
    JSResponse × Nat :=
  if apiKey = "" then (configResult, 0)
  else
    let t := callWithRetry api 3
    match t.outcome with
    | RetryOutcome.success TextPayload.missing =>
        ({ answer := none, reference := none, topic := none, explanation := none,
           error := none }, t.calls)
    | RetryOutcome.success (TextPayload.invalid msg) => (catchResult msg, t.calls)
    | RetryOutcome.success (TextPayload.parsed c) =>
        ({ answer := c.answer, reference := c.reference, topic := c.topic,
           explanation := c.explanation, error := none }, t.calls)
    | RetryOutcome.thrown e => (catchResult e, t.calls)
    | RetryOutcome.exhausted le => (catchResult (le.getD ""), t.calls)

deriving instance DecidableEq for Except

/-- What one `fetch` of the Ollama endpoint does: reject (network failure,
message given), or resolve with `response.ok`, `response.statusText`, and the
outcome of `JSON.parse(data.message.content)` (error = the parse/shape chain
threw, ok = the four parsed fields). -/
inductive FetchOutcome where
  | reject : String → FetchOutcome
  | resp : Bool → String → Except String ContentFields → FetchOutcome
deriving DecidableEq, Repr

/-- The single `catch` result of `getOllamaWisdom`. -/
def ollamaErrorResult : JSResponse :=
  { answer := some "Local Service Error", reference := some "", topic := some "Network",
    explanation := some "",
    error := some "Could not connect to Ollama. Ensure Ollama is running and OLLAMA_ORIGINS='*' is set." }

/-- The `getOllamaWisdom` of `src/services/aiService.ts`. The prompt, version and
settings only shape the request body, which the `fetched` oracle abstracts;
the result is returned with the number of fetch invocations. Every failure
path (rejected fetch, non-ok status, content parse failure) lands in the one
`catch` and yields `ollamaErrorResult`; a parsed content object is returned
verbatim with no per-field fallback. -/
def getOllamaWisdom (fetched : Nat → FetchOutcome) : JSResponse × Nat :=
  match fetched 0 with
  | FetchOutcome.reject _ => (ollamaErrorResult, 1)
  | FetchOutcome.resp ok _ content =>
    if !ok then (ollamaErrorResult, 1)
    else
      match content with
      | Except.error _ => (ollamaErrorResult, 1)
      | Except.ok c =>
        ({ answer := c.answer, reference := c.reference, topic := c.topic,
           explanation := c.explanation, error := none }, 1)

/-- The `settings.provider` values of `src/types.ts` (`AiProvider`). -/
inductive AiProvider where
  | gemini : AiProvider
  | ollama : AiProvider
deriving DecidableEq, Repr

/-- The `AiSettings` record of `src/types.ts`. -/
structure AiSettings where
  provider : AiProvider
  ollamaHost : String
  ollamaModel : String
deriving DecidableEq, Repr

/-- The `getBibleWisdom` of `src/services/aiService.ts` (the dispatcher):
`settings.provider === 'ollama'` routes to `getOllamaWisdom`, otherwise to
`getGeminiWisdom`. Returns the result, the number of cloud transport
invocations, and the number of local fetch invocations. -/
def getBibleWisdom (settings : AiSettings) (apiKey : String)
    (api : Nat → Except String TextPayload) (fetched : Nat → FetchOutcome) :
    JSResponse × Nat × Nat :=
  if settings.provider = AiProvider.ollama then
    let r := getOllamaWisdom fetched
    (r.1, 0, r.2)
  else
    let r := getGeminiWisdom apiKey api
    (r.1, r.2, 0)

end AiService

/-- The field is present and carries a non-empty string. -/
def populatedField (v : Option String) : Prop := ∃ s, v = some s ∧ s ≠ ""

/-- All four content fields of the result are present (possibly empty). -/
def allFieldsPresent (r : JSResponse) : Prop :=
  r.answer.isSome = true ∧ r.reference.isSome = true ∧
    r.topic.isSome = true ∧ r.explanation.isSome = true

/-! ### Helper lemmas about the retry loop -/

/-- With no fuel the loop body never runs: the trailing throw of the recorded
last error is returned with zero invocations. -/
theorem retryGo_zero {α : Type} (rb : String → Bool) (d : Nat → Nat)
    (fn : Nat → Except String α) (m : Nat) (a : Nat) (le : Option String) :
    retryGo rb d fn m a 0 le = ⟨RetryOutcome.exhausted le, 0, []⟩ := rfl

/-- While `attempt + fuel = maxRetries` and fuel remains, the loop cannot end
in the trailing `throw lastError`. -/
theorem retryGo_not_exhausted {α : Type} (rb : String → Bool) (d : Nat → Nat)
    (fn : Nat → Except String α) (m : Nat) :
    ∀ (fuel a : Nat) (le le2 : Option String), a + fuel = m → 0 < fuel →
      (retryGo rb d fn m a fuel le).outcome ≠ RetryOutcome.exhausted le2 := by
  intro fuel
  induction fuel with
  | zero => intro a le le2 _ h0; omega
  | succ f ih =>
    intro a le le2 hinv _
    cases hfa : fn a with
    | ok v => simp [retryGo, hfa]
    | error e =>
      by_cases hcond : (rb e && decide (a < m - 1)) = true
      · have ha : a < m - 1 := of_decide_eq_true ((Bool.and_eq_true _ _).mp hcond).2
        simp only [retryGo, hfa, hcond, if_true]
        exact ih (a + 1) (some e) le2 (by omega) (by omega)
      · simp [retryGo, hfa, hcond]

/-- A successful outcome carries a value that some invocation of the wrapped
operation actually produced. -/
theorem retryGo_success_src {α : Type} (rb : String → Bool) (d : Nat → Nat)
    (fn : Nat → Except String α) (m : Nat) :
    ∀ (fuel a : Nat) (le : Option String) (v : α),
      (retryGo rb d fn m a fuel le).outcome = RetryOutcome.success v →
      ∃ k, fn k = Except.ok v := by
  intro fuel
  induction fuel with
  | zero => intro a le v h; simp [retryGo] at h
  | succ f ih =>
    intro a le v h
    cases hfa : fn a with
    | ok w =>
      simp only [retryGo, hfa] at h
      exact ⟨a, by rw [hfa]; cases h; rfl⟩
    | error e =>
      by_cases hcond : (rb e && decide (a < m - 1)) = true
      · simp only [retryGo, hfa, hcond, if_true] at h
        exact ih (a + 1) (some e) v h
      · simp [retryGo, hfa, hcond] at h

/-- A thrown outcome carries the error of some failed invocation of the
wrapped operation. -/
theorem retryGo_thrown_src {α : Type} (rb : String → Bool) (d : Nat → Nat)
    (fn : Nat → Except String α) (m : Nat) :
    ∀ (fuel a : Nat) (le : Option String) (e : String),
      (retryGo rb d fn m a fuel le).outcome = RetryOutcome.thrown e →
      ∃ k, fn k = Except.error e := by
  intro fuel
  induction fuel with
  | zero => intro a le e h; simp [retryGo] at h
  | succ f ih =>
    intro a le e h
    cases hfa : fn a with
    | ok w => simp [retryGo, hfa] at h
    | error e2 =>
      by_cases hcond : (rb e2 && decide (a < m - 1)) = true
      · simp only [retryGo, hfa, hcond, if_true] at h
        exact ih (a + 1) (some e2) e h
      · simp only [retryGo, hfa, hcond, if_false, Bool.false_eq_true] at h
        exact ⟨a, by rw [hfa]; cases h; rfl⟩

/-- If every invocation fails with the same error, the loop ends by throwing
that error (as long as any fuel remains). -/
theorem retryGo_const_error {α : Type} (rb : String → Bool) (d : Nat → Nat)
    (fn : Nat → Except String α) (m : Nat) (e : String)
    (hfn : ∀ k, fn k = Except.error e) :
    ∀ (fuel a : Nat) (le : Option String), a + fuel = m → 0 < fuel →
      (retryGo rb d fn m a fuel le).outcome = RetryOutcome.thrown e := by
  intro fuel
  induction fuel with
  | zero => intro a le _ h0; omega
  | succ f ih =>
    intro a le hinv _
    by_cases hcond : (rb e && decide (a < m - 1)) = true
    · have ha : a < m - 1 := of_decide_eq_true ((Bool.and_eq_true _ _).mp hcond).2
      simp only [retryGo, hfn a, hcond, if_true]
      exact ih (a + 1) (some e) (by omega) (by omega)
    · simp [retryGo, hfn a, hcond]

/-- The delays a run records are the variant's delay formula evaluated at
consecutive attempt indices starting at the initial attempt, and every
delayed attempt index is strictly below `maxRetries - 1`. -/
theorem retryGo_delays_spec {α : Type} (rb : String → Bool) (d : Nat → Nat)
    (fn : Nat → Except String α) (m : Nat) :
    ∀ (fuel a : Nat) (le : Option String),
      ∃ k, (retryGo rb d fn m a fuel le).delays
              = (List.range k).map (fun i => d (a + i)) ∧
           ∀ i, i < k → a + i < m - 1 := by
  intro fuel
  induction fuel with
  | zero => intro a le; exact ⟨0, by simp [retryGo], by omega⟩
  | succ f ih =>
    intro a le
    cases hfa : fn a with
    | ok v => exact ⟨0, by simp [retryGo, hfa], by omega⟩
    | error e =>
      by_cases hcond : (rb e && decide (a < m - 1)) = true
      · have ha : a < m - 1 := of_decide_eq_true ((Bool.and_eq_true _ _).mp hcond).2
        obtain ⟨k, hk, hb⟩ := ih (a + 1) (some e)
        refine ⟨k + 1, ?_, ?_⟩
        · simp only [retryGo, hfa, hcond, if_true]
          rw [hk, List.range_succ_eq_map]
          simp only [List.map_cons, List.map_map, Nat.add_zero]
          refine congrArg (List.cons (d a)) ?_
          refine List.map_congr_left ?_
          intro i _
          simp only [Function.comp]
          exact congrArg d (by omega)
        · intro i hi
          cases i with
          | zero => simpa using ha
          | succ j => have := hb j (by omega); omega
      · exact ⟨0, by simp [retryGo, hfa, hcond], by omega⟩

/-- Mapping a strictly monotone delay formula over consecutive indices gives
a strictly increasing list. -/
theorem chainLt_map_range (d : Nat → Nat) (hd : ∀ n, d n < d (n + 1)) (a k : Nat) :
    List.Chain' (fun x y => x < y) ((List.range k).map (fun i => d (a + i))) := by
  have hm : StrictMono d := strictMono_nat_of_lt_succ hd
  have hp : List.Pairwise (fun x y => x < y) (List.range k) := List.pairwise_lt_range k
  exact List.Pairwise.chain' (List.Pairwise.map _ (fun x y hxy => hm (by omega)) hp)

/-- Defaulting with a non-empty string never yields the empty string. -/
theorem jsOr_ne_empty (v : Option String) (dft : String) (h : dft ≠ "") :
    jsOr v dft ≠ "" := by
  cases v with
  | none => simpa [jsOr] using h
  | some s =>
    by_cases hs : s = "" <;> simp [jsOr, hs, h]

/-- With positive fuel equal to the bound, a run ends in a success whose value
some invocation produced, or a throw of the error of some failed invocation. -/
theorem retryGo_total {α : Type} (rb : String → Bool) (d : Nat → Nat)
    (fn : Nat → Except String α) (m : Nat) (hm : 0 < m) :
    (∃ v, (retryGo rb d fn m 0 m none).outcome = RetryOutcome.success v ∧
        ∃ k, fn k = Except.ok v) ∨
    (∃ e, (retryGo rb d fn m 0 m none).outcome = RetryOutcome.thrown e ∧
        ∃ k, fn k = Except.error e) := by
  cases ho : (retryGo rb d fn m 0 m none).outcome with
  | success v => exact Or.inl ⟨v, rfl, retryGo_success_src rb d fn m m 0 none v ho⟩
  | thrown e => exact Or.inr ⟨e, rfl, retryGo_thrown_src rb d fn m m 0 none e ho⟩
  | exhausted le =>
    exact absurd ho (retryGo_not_exhausted rb d fn m m 0 none le (by omega) hm)

/-- One delay in the schedule is below the ceiling set by the attempt bound:
for a delayed attempt `j < m - 1` and jitter below 1000 ms,
`2 ^ j * 1000 + jitter < 2 ^ (m - 1) * 1000`. -/
theorem backoff_delay_lt_bound (j b m : Nat) (hb : b < 1000) (hjm : j < m - 1) :
    2 ^ j * 1000 + b < 2 ^ (m - 1) * 1000 := by
  have h1 : (1 : Nat) ≤ 2 ^ j := Nat.one_le_two_pow
  have h2 : (2 : Nat) ^ (j + 1) = 2 ^ j * 2 := pow_succ 2 j
  have h3 : (2 : Nat) ^ (j + 1) ≤ 2 ^ (m - 1) := Nat.pow_le_pow_right (by omega) (by omega)
  omega

/-! ### Claim theorems -/

/-- Claim C10: for every wrapped operation and every `maxRetries ≥ 1`, a run
of either `callWithRetry` variant ends by returning a value produced by the
wrapped operation or by throwing an error raised inside the loop body; the
trailing re-raise after the loop is unreachable, and with `maxRetries = 0`
it throws with no last error recorded and zero invocations. -/
theorem retry_loop_totality {α : Type} (fn : Nat → Except String α)
    (jitter : Nat → Nat) (m : Nat) (hm : 0 < m) :
    ((∃ v, (GeminiService.callWithRetry fn jitter m).outcome = RetryOutcome.success v ∧
        ∃ k, fn k = Except.ok v) ∨
     (∃ e, (GeminiService.callWithRetry fn jitter m).outcome = RetryOutcome.thrown e ∧
        ∃ k, fn k = Except.error e)) ∧
    ((∃ v, (AiService.callWithRetry fn m).outcome = RetryOutcome.success v ∧
        ∃ k, fn k = Except.ok v) ∨
     (∃ e, (AiService.callWithRetry fn m).outcome = RetryOutcome.thrown e ∧
        ∃ k, fn k = Except.error e)) ∧
    GeminiService.callWithRetry fn jitter 0
        = ⟨RetryOutcome.exhausted none, 0, []⟩ ∧
    AiService.callWithRetry fn 0 = ⟨RetryOutcome.exhausted none, 0, []⟩ :=
  ⟨retryGo_total _ _ fn m hm, retryGo_total _ _ fn m hm, rfl, rfl⟩

/-- Witness for C10 at a concrete operation that succeeds at once. -/
theorem retry_loop_totality_witness :
    ((∃ v, (GeminiService.callWithRetry
              (fun _ => (Except.ok 42 : Except String Nat)) (fun _ => 0) 3).outcome
            = RetryOutcome.success v ∧
        ∃ _k : Nat, (Except.ok 42 : Except String Nat) = Except.ok v) ∨
     (∃ e, (GeminiService.callWithRetry
              (fun _ => (Except.ok 42 : Except String Nat)) (fun _ => 0) 3).outcome
            = RetryOutcome.thrown e ∧
        ∃ _k : Nat, (Except.ok 42 : Except String Nat) = Except.error e)) ∧
    ((∃ v, (AiService.callWithRetry
              (fun _ => (Except.ok 42 : Except String Nat)) 3).outcome
            = RetryOutcome.success v ∧
        ∃ _k : Nat, (Except.ok 42 : Except String Nat) = Except.ok v) ∨
     (∃ e, (AiService.callWithRetry
              (fun _ => (Except.ok 42 : Except String Nat)) 3).outcome
            = RetryOutcome.thrown e ∧
        ∃ _k : Nat, (Except.ok 42 : Except String Nat) = Except.error e)) ∧
    GeminiService.callWithRetry (fun _ => (Except.ok 42 : Except String Nat)) (fun _ => 0) 0
        = ⟨RetryOutcome.exhausted none, 0, []⟩ ∧
    AiService.callWithRetry (fun _ => (Except.ok 42 : Except String Nat)) 0
        = ⟨RetryOutcome.exhausted none, 0, []⟩ :=
  retry_loop_totality (fun _ => (Except.ok 42 : Except String Nat)) (fun _ => 0) 3 (by decide)

/-- Counterexample to claim C1 as stated: in the `aiService` variant an error
whose message reports the provider-overloaded condition is NOT retried even
though attempts remain — the wrapped operation is invoked exactly once and
the error is re-raised with no backoff wait. -/
theorem aiService_overloaded_not_retried :
    strContains "model is overloaded" "overloaded" = true ∧
    AiService.callWithRetry
        (fun _ => (Except.error "model is overloaded" : Except String Nat)) 3
      = ⟨RetryOutcome.thrown "model is overloaded", 1, []⟩ := by
  exact ⟨by decide, by decide⟩

/-- Claim C1 (amended): each retry wrapper retries exactly when its own
transient test passes and attempts remain. The `geminiService` variant treats
503/429/overloaded/fetch messages as transient; the `aiService` variant only
503/429. In both, a failure that is non-transient for that variant, or a
failure with attempts exhausted, is re-raised immediately after exactly one
further invocation and with no backoff wait; a transient first failure with
attempts remaining is retried after one backoff delay. -/
theorem retry_transient_criterion {α : Type} (fn : Nat → Except String α)
    (jitter : Nat → Nat) (e : String) (v : α) (h0 : fn 0 = Except.error e) :
    (GeminiService.isRetryableMsg e = false →
        GeminiService.callWithRetry fn jitter 3 = ⟨RetryOutcome.thrown e, 1, []⟩) ∧
    (AiService.isRetryableMsg e = false →
        AiService.callWithRetry fn 3 = ⟨RetryOutcome.thrown e, 1, []⟩) ∧
    (GeminiService.callWithRetry fn jitter 1 = ⟨RetryOutcome.thrown e, 1, []⟩) ∧
    (AiService.callWithRetry fn 1 = ⟨RetryOutcome.thrown e, 1, []⟩) ∧
    (GeminiService.isRetryableMsg e = true → fn 1 = Except.ok v →
        GeminiService.callWithRetry fn jitter 3
          = ⟨RetryOutcome.success v, 2, [GeminiService.backoffDelay jitter 0]⟩) ∧
    (AiService.isRetryableMsg e = true → fn 1 = Except.ok v →
        AiService.callWithRetry fn 3
          = ⟨RetryOutcome.success v, 2, [AiService.backoffDelay 0]⟩) := by
  refine ⟨?_, ?_, ?_, ?_, ?_, ?_⟩
  · intro h
    simp [GeminiService.callWithRetry, retryGo, h0, h]
  · intro h
    simp [AiService.callWithRetry, retryGo, h0, h]
  · simp [GeminiService.callWithRetry, retryGo, h0]
  · simp [AiService.callWithRetry, retryGo, h0]
  · intro h h1
    simp [GeminiService.callWithRetry, retryGo, h0, h, h1]
  · intro h h1
    simp [AiService.callWithRetry, retryGo, h0, h, h1]

/-- Witness for C1 (amended): a malformed-credential style message is not
transient for either variant, so the first failure is re-raised after exactly
one invocation; and a 503 first failure followed by a success is retried once. -/
theorem retry_transient_criterion_witness :
    GeminiService.callWithRetry
        (fun k => if k = 0 then Except.error "API key not valid" else Except.ok (7 : Nat))
        (fun _ => 5) 3
      = ⟨RetryOutcome.thrown "API key not valid", 1, []⟩ ∧
    GeminiService.callWithRetry
        (fun k => if k = 0 then Except.error "503 UNAVAILABLE" else Except.ok (7 : Nat))
        (fun _ => 5) 3
      = ⟨RetryOutcome.success 7, 2, [1005]⟩ := by
  constructor
  · exact (retry_transient_criterion
      (fun k => if k = 0 then Except.error "API key not valid" else Except.ok (7 : Nat))
      (fun _ => 5) "API key not valid" 7 (by decide)).1 (by decide)
  · exact (retry_transient_criterion
      (fun k => if k = 0 then Except.error "503 UNAVAILABLE" else Except.ok (7 : Nat))
      (fun _ => 5) "503 UNAVAILABLE" 7 (by decide)).2.2.2.2.1 (by decide) (by decide)

/-- Claim C2: the backoff delay before retry `n + 1` is `2 ^ n` seconds
(here in milliseconds) plus, in the cloud variant, a jitter below one second;
the delay schedule of either variant is strictly monotone, every run records
a strictly increasing list of delays, and each delay is bounded by
`2 ^ (maxRetries - 1)` seconds. -/
theorem backoff_schedule_monotone_bounded (jitter : Nat → Nat)
    (hj : ∀ k, jitter k < 1000) :
    (∀ n, GeminiService.backoffDelay jitter n = 2 ^ n * 1000 + jitter n) ∧
    (∀ n, AiService.backoffDelay n = 2 ^ n * 1000) ∧
    (∀ n, GeminiService.backoffDelay jitter n < GeminiService.backoffDelay jitter (n + 1)) ∧
    (∀ n, AiService.backoffDelay n < AiService.backoffDelay (n + 1)) ∧
    (∀ (α : Type) (fn : Nat → Except String α) (m : Nat),
      List.Chain' (fun x y => x < y) (GeminiService.callWithRetry fn jitter m).delays ∧
      List.Chain' (fun x y => x < y) (AiService.callWithRetry fn m).delays ∧
      (∀ dl ∈ (GeminiService.callWithRetry fn jitter m).delays, dl < 2 ^ (m - 1) * 1000) ∧
      (∀ dl ∈ (AiService.callWithRetry fn m).delays, dl < 2 ^ (m - 1) * 1000)) := by
  have hmonoG : ∀ n, GeminiService.backoffDelay jitter n
      < GeminiService.backoffDelay jitter (n + 1) := by
    intro n
    have h1 := hj n
    have h2 : (1 : Nat) ≤ 2 ^ n := Nat.one_le_two_pow
    have h3 : (2 : Nat) ^ (n + 1) = 2 ^ n * 2 := pow_succ 2 n
    simp only [GeminiService.backoffDelay]
    omega
  have hmonoA : ∀ n, AiService.backoffDelay n < AiService.backoffDelay (n + 1) := by
    intro n
    have h2 : (1 : Nat) ≤ 2 ^ n := Nat.one_le_two_pow
    have h3 : (2 : Nat) ^ (n + 1) = 2 ^ n * 2 := pow_succ 2 n
    simp only [AiService.backoffDelay]
    omega
  refine ⟨fun n => rfl, fun n => rfl, hmonoG, hmonoA, ?_⟩
  intro α fn m
  obtain ⟨kG, hkG, hbG⟩ := retryGo_delays_spec GeminiService.isRetryableMsg
    (GeminiService.backoffDelay jitter) fn m m 0 none
  obtain ⟨kA, hkA, hbA⟩ := retryGo_delays_spec AiService.isRetryableMsg
    AiService.backoffDelay fn m m 0 none
  refine ⟨?_, ?_, ?_, ?_⟩
  · rw [GeminiService.callWithRetry, hkG]
    exact chainLt_map_range _ hmonoG 0 kG
  · rw [AiService.callWithRetry, hkA]
    exact chainLt_map_range _ hmonoA 0 kA
  · intro dl hdl
    rw [GeminiService.callWithRetry, hkG] at hdl
    simp only [List.mem_map, List.mem_range] at hdl
    obtain ⟨i, hik, rfl⟩ := hdl
    have hi := hbG i hik
    exact backoff_delay_lt_bound (0 + i) (jitter (0 + i)) m (hj (0 + i)) hi
  · intro dl hdl
    rw [AiService.callWithRetry, hkA] at hdl
    simp only [List.mem_map, List.mem_range] at hdl
    obtain ⟨i, hik, rfl⟩ := hdl
    have hi := hbA i hik
    have := backoff_delay_lt_bound (0 + i) 0 m (by omega) hi
    simpa [AiService.backoffDelay] using this

/-- Witness for C2 at zero jitter: the delay formula at attempt 2 and the
strictly increasing delay list of a run that fails with 503 three times. -/
theorem backoff_schedule_monotone_bounded_witness :
    GeminiService.backoffDelay (fun _ => 0) 2 = 2 ^ 2 * 1000 + 0 ∧
    List.Chain' (fun x y => x < y)
      (GeminiService.callWithRetry
        (fun _ => (Except.error "503" : Except String Nat)) (fun _ => 0) 3).delays := by
  have h := backoff_schedule_monotone_bounded (fun _ => 0) (fun k => by norm_num)
  exact ⟨h.1 2, (h.2.2.2.2 Nat (fun _ => Except.error "503") 3).1⟩

/-- The cloud client's error classification always lands in one of its four
classes (capacity/overloaded, rate-limited, network, unknown). -/
theorem classifyError_cases (msg : String) :
    GeminiService.classifyError msg
        = "Google's AI servers are currently at capacity. Please try again in a few seconds." ∨
      GeminiService.classifyError msg = "Too many requests. Please slow down a bit." ∨
      GeminiService.classifyError msg = "Connection lost. Please check your internet or VPN." ∨
      GeminiService.classifyError msg
        = "The service is currently busy. Please wait a moment and try again." := by
  simp only [GeminiService.classifyError]
  by_cases h1 : (strContains msg "503" || strContains msg "overloaded") = true
  · simp [h1]
  · by_cases h2 : strContains msg "429" = true
    · simp [h1, h2]
    · by_cases h3 : (!(msg == "") && strContains msg "fetch") = true
      · simp [h1, h2, h3]
      · simp [h1, h2, h3]

/-- The classified message is never empty. -/
theorem classifyError_ne_empty (msg : String) : GeminiService.classifyError msg ≠ "" := by
  rcases classifyError_cases msg with h | h | h | h <;> rw [h] <;> decide

/-- Every result of `geminiService.getBibleWisdom` is the config-error
result, a classified error result, or a fallback-substituted success. -/
theorem geminiService_result_cases (apiKey : String)
    (api : Nat → Except String TextPayload) (jitter : Nat → Nat) :
    ((GeminiService.getBibleWisdom apiKey api jitter).1 = GeminiService.configResult
        ∧ apiKey = "") ∨
    (∃ msg, (GeminiService.getBibleWisdom apiKey api jitter).1
        = GeminiService.errorResult msg) ∨
    (∃ c, (GeminiService.getBibleWisdom apiKey api jitter).1
        = GeminiService.successResult c) := by
  by_cases hkey : apiKey = ""
  · exact Or.inl ⟨by simp [GeminiService.getBibleWisdom, hkey], hkey⟩
  · cases ho : (GeminiService.callWithRetry api jitter 3).outcome with
    | success p =>
      cases p with
      | missing =>
        refine Or.inr (Or.inr ⟨⟨none, none, none, none⟩, ?_⟩)
        simp only [GeminiService.getBibleWisdom, if_neg hkey]
        rw [ho]
      | invalid msg =>
        refine Or.inr (Or.inl ⟨msg, ?_⟩)
        simp only [GeminiService.getBibleWisdom, if_neg hkey]
        rw [ho]
      | parsed c =>
        refine Or.inr (Or.inr ⟨c, ?_⟩)
        simp only [GeminiService.getBibleWisdom, if_neg hkey]
        rw [ho]
    | thrown e =>
      refine Or.inr (Or.inl ⟨e, ?_⟩)
      simp only [GeminiService.getBibleWisdom, if_neg hkey]
      rw [ho]
    | exhausted le =>
      refine Or.inr (Or.inl ⟨le.getD "", ?_⟩)
      simp only [GeminiService.getBibleWisdom, if_neg hkey]
      rw [ho]

/-- Every result of `aiService.getGeminiWisdom` is the config-error result, a
raw-message catch result, or a verbatim copy of a payload the transport
actually produced (the empty object when `result.text` was falsy). -/
theorem aiService_gemini_result_cases (apiKey : String)
    (api : Nat → Except String TextPayload) :
    ((AiService.getGeminiWisdom apiKey api).1 = AiService.configResult ∧ apiKey = "") ∨
    (∃ msg, (AiService.getGeminiWisdom apiKey api).1 = AiService.catchResult msg) ∨
    ((AiService.getGeminiWisdom apiKey api).1 = ⟨none, none, none, none, none⟩ ∧
        ∃ k, api k = Except.ok TextPayload.missing) ∨
    (∃ c, (AiService.getGeminiWisdom apiKey api).1
          = ⟨c.answer, c.reference, c.topic, c.explanation, none⟩ ∧
        ∃ k, api k = Except.ok (TextPayload.parsed c)) := by
  by_cases hkey : apiKey = ""
  · exact Or.inl ⟨by simp [AiService.getGeminiWisdom, hkey], hkey⟩
  · cases ho : (AiService.callWithRetry api 3).outcome with
    | success p =>
      cases p with
      | missing =>
        refine Or.inr (Or.inr (Or.inl ⟨?_, ?_⟩))
        · simp only [AiService.getGeminiWisdom, if_neg hkey]
          rw [ho]
        · exact retryGo_success_src _ _ api 3 3 0 none _ ho
      | invalid msg =>
        refine Or.inr (Or.inl ⟨msg, ?_⟩)
        simp only [AiService.getGeminiWisdom, if_neg hkey]
        rw [ho]
      | parsed c =>
        refine Or.inr (Or.inr (Or.inr ⟨c, ?_, ?_⟩))
        · simp only [AiService.getGeminiWisdom, if_neg hkey]
          rw [ho]
        · exact retryGo_success_src _ _ api 3 3 0 none _ ho
    | thrown e =>
      refine Or.inr (Or.inl ⟨e, ?_⟩)
      simp only [AiService.getGeminiWisdom, if_neg hkey]
      rw [ho]
    | exhausted le =>
      refine Or.inr (Or.inl ⟨le.getD "", ?_⟩)
      simp only [AiService.getGeminiWisdom, if_neg hkey]
      rw [ho]

/-- Every result of `getOllamaWisdom` is the single catch result, or a
verbatim copy of a successfully parsed content object of an ok response. -/
theorem ollama_result_cases (fetched : Nat → AiService.FetchOutcome) :
    (AiService.getOllamaWisdom fetched).1 = AiService.ollamaErrorResult ∨
    (∃ c, (AiService.getOllamaWisdom fetched).1
          = ⟨c.answer, c.reference, c.topic, c.explanation, none⟩ ∧
        ∃ st, fetched 0 = AiService.FetchOutcome.resp true st (Except.ok c)) := by
  cases hf : fetched 0 with
  | reject m => exact Or.inl (by simp [AiService.getOllamaWisdom, hf])
  | resp ok st content =>
    cases ok with
    | false => exact Or.inl (by simp [AiService.getOllamaWisdom, hf])
    | true =>
      cases content with
      | error m => exact Or.inl (by simp [AiService.getOllamaWisdom, hf])
      | ok c =>
        exact Or.inr ⟨c, by simp [AiService.getOllamaWisdom, hf], st, rfl⟩

/-- Counterexample to claim C3 as stated: the `aiService` cloud client,
given a payload with all four fields missing, returns a result whose fields
are absent rather than the documented fallback strings (the answer field is
not "No scriptural answer found."), though no error is raised. -/
theorem aiService_gemini_no_fallbacks :
    (AiService.getGeminiWisdom "key"
        (fun _ => Except.ok (TextPayload.parsed ⟨none, none, none, none⟩))).1.answer = none ∧
    (AiService.getGeminiWisdom "key"
        (fun _ => Except.ok (TextPayload.parsed ⟨none, none, none, none⟩))).1.error = none := by
  exact ⟨by decide, by decide⟩

/-- Claim C3 (amended): `geminiService.getBibleWisdom` substitutes the
documented fallback string for each missing or empty field of a parsed
payload (and for the empty object parsed when `result.text` is falsy) and
returns no error for such field gaps; the `aiService` variant instead
returns the parsed payload verbatim, leaving missing fields absent, but
likewise raises no error for a field gap. -/
theorem field_fallback_substitution (apiKey : String) (hk : apiKey ≠ "")
    (jitter : Nat → Nat) :
    (∀ (api : Nat → Except String TextPayload) (c : ContentFields),
        api 0 = Except.ok (TextPayload.parsed c) →
        GeminiService.getBibleWisdom apiKey api jitter
          = (GeminiService.successResult c, 1)) ∧
    (∀ api, api 0 = Except.ok TextPayload.missing →
        GeminiService.getBibleWisdom apiKey api jitter
          = (GeminiService.successResult ⟨none, none, none, none⟩, 1)) ∧
    (∀ c, GeminiService.successResult c
        = ⟨some (jsOr c.answer "No scriptural answer found."),
           some (jsOr c.reference "Unknown"),
           some (jsOr c.topic "Wisdom"),
           some (jsOr c.explanation ""), none⟩) ∧
    (∀ (api : Nat → Except String TextPayload) (c : ContentFields),
        api 0 = Except.ok (TextPayload.parsed c) →
        AiService.getGeminiWisdom apiKey api
          = (⟨c.answer, c.reference, c.topic, c.explanation, none⟩, 1)) := by
  refine ⟨?_, ?_, fun c => rfl, ?_⟩
  · intro api c h
    simp [GeminiService.getBibleWisdom, GeminiService.callWithRetry, retryGo, h, hk]
  · intro api h
    simp [GeminiService.getBibleWisdom, GeminiService.callWithRetry, retryGo, h, hk]
  · intro api c h
    simp [AiService.getGeminiWisdom, AiService.callWithRetry, retryGo, h, hk]

/-- Witness for C3 (amended): a payload with a missing reference, an empty
topic and a present answer receives exactly the documented fallbacks. -/
theorem field_fallback_substitution_witness :
    GeminiService.getBibleWisdom "key"
        (fun _ => Except.ok (TextPayload.parsed ⟨some "a", none, some "", some "e"⟩))
        (fun _ => 0)
      = (⟨some "a", some "Unknown", some "Wisdom", some "e", none⟩, 1) := by
  have h := (field_fallback_substitution "key" (by decide) (fun _ => 0)).1
      (fun _ => Except.ok (TextPayload.parsed ⟨some "a", none, some "", some "e"⟩))
      ⟨some "a", none, some "", some "e"⟩ rfl
  simpa [GeminiService.successResult, jsOr] using h

/-- Counterexample to claim C4 as stated: the `aiService` cloud client
surfaces the raw error message (not one of the four class-specific
messages), and in `geminiService` the terminal capacity-class result carries
populated placeholder content fields rather than absent ones. -/
theorem raw_error_and_present_content_fields :
    (AiService.getGeminiWisdom "key"
        (fun _ => Except.error "Invalid JSON payload received")).1.error
      = some "Invalid JSON payload received" ∧
    ("Invalid JSON payload received"
        ≠ "Google's AI servers are currently at capacity. Please try again in a few seconds." ∧
      "Invalid JSON payload received" ≠ "Too many requests. Please slow down a bit." ∧
      "Invalid JSON payload received" ≠ "Connection lost. Please check your internet or VPN." ∧
      "Invalid JSON payload received"
        ≠ "The service is currently busy. Please wait a moment and try again.") ∧
    (GeminiService.getBibleWisdom "key" (fun _ => Except.error "503") (fun _ => 0)).1.answer
      = some "Connection Issue" ∧
    (GeminiService.getBibleWisdom "key" (fun _ => Except.error "503") (fun _ => 0)).1.error
      = some "Google's AI servers are currently at capacity. Please try again in a few seconds." := by
  exact ⟨by decide, by decide, by decide, by decide⟩

/-- Claim C4 (amended): on terminal failure of `geminiService.getBibleWisdom`
the error message is classified into exactly one of the four classes and the
result carries the class-specific user-facing message — capacity-class for a
503 message — with empty reference and explanation but placeholder answer
and topic; the `aiService` cloud client instead surfaces the raw error
message in the error field. -/
theorem terminal_error_classification (apiKey e : String) (hk : apiKey ≠ "")
    (api : Nat → Except String TextPayload) (jitter : Nat → Nat)
    (hapi : ∀ k, api k = Except.error e) :
    (GeminiService.getBibleWisdom apiKey api jitter).1 = GeminiService.errorResult e ∧
    (GeminiService.errorResult e).error = some (GeminiService.classifyError e) ∧
    (GeminiService.classifyError e
        = "Google's AI servers are currently at capacity. Please try again in a few seconds." ∨
      GeminiService.classifyError e = "Too many requests. Please slow down a bit." ∨
      GeminiService.classifyError e = "Connection lost. Please check your internet or VPN." ∨
      GeminiService.classifyError e
        = "The service is currently busy. Please wait a moment and try again.") ∧
    (strContains e "503" = true → GeminiService.classifyError e
        = "Google's AI servers are currently at capacity. Please try again in a few seconds.") ∧
    (GeminiService.errorResult e).reference = some "" ∧
    (GeminiService.errorResult e).explanation = some "" ∧
    (AiService.getGeminiWisdom apiKey api).1 = AiService.catchResult e ∧
    (AiService.catchResult e).error = some e := by
  have hoG : (GeminiService.callWithRetry api jitter 3).outcome = RetryOutcome.thrown e :=
    retryGo_const_error _ _ api 3 e hapi 3 0 none (by omega) (by omega)
  have hoA : (AiService.callWithRetry api 3).outcome = RetryOutcome.thrown e :=
    retryGo_const_error _ _ api 3 e hapi 3 0 none (by omega) (by omega)
  refine ⟨?_, rfl, classifyError_cases e, ?_, rfl, rfl, ?_, rfl⟩
  · simp only [GeminiService.getBibleWisdom, if_neg hk]
    rw [hoG]
  · intro h5
    simp [GeminiService.classifyError, h5]
  · simp only [AiService.getGeminiWisdom, if_neg hk]
    rw [hoA]

/-- Witness for C4 (amended) at a 503 failure on every attempt. -/
theorem terminal_error_classification_witness :
    (GeminiService.getBibleWisdom "key"
        (fun _ => Except.error "503 Service Unavailable") (fun _ => 0)).1
      = GeminiService.errorResult "503 Service Unavailable" ∧
    GeminiService.classifyError "503 Service Unavailable"
      = "Google's AI servers are currently at capacity. Please try again in a few seconds." ∧
    (AiService.getGeminiWisdom "key" (fun _ => Except.error "503 Service Unavailable")).1
      = AiService.catchResult "503 Service Unavailable" := by
  have h := terminal_error_classification "key" "503 Service Unavailable" (by decide)
      (fun _ => Except.error "503 Service Unavailable") (fun _ => 0) (fun k => rfl)
  exact ⟨h.1, h.2.2.2.1 (by decide), h.2.2.2.2.2.2.1⟩

/-- Counterexample to claim C5 as stated: a resolved cloud payload with all
four fields missing makes the dispatcher resolve to a value that is not of
the four-string-field shape (the answer field is absent) and that carries no
error either. -/
theorem dispatch_result_missing_fields :
    (AiService.getBibleWisdom ⟨AiService.AiProvider.gemini, "h", "m"⟩ "key"
        (fun _ => Except.ok (TextPayload.parsed ⟨none, none, none, none⟩))
        (fun _ => AiService.FetchOutcome.reject "unused")).1.answer = none ∧
    (AiService.getBibleWisdom ⟨AiService.AiProvider.gemini, "h", "m"⟩ "key"
        (fun _ => Except.ok (TextPayload.parsed ⟨none, none, none, none⟩))
        (fun _ => AiService.FetchOutcome.reject "unused")).1.error = none := by
  exact ⟨by decide, by decide⟩

/-- Claim C5 (amended): the dispatcher never raises across its boundary (it
is total in this embedding) and every failure is expressed via the error
field of a result whose four content fields are all present; but a success
outcome carries the parsed payload verbatim, so all four content fields are
guaranteed present only when every payload the transports can deliver
supplies them. -/
theorem dispatch_no_throw_shape (settings : AiService.AiSettings) (apiKey : String)
    (api : Nat → Except String TextPayload) (fetched : Nat → AiService.FetchOutcome) :
    (∀ m, (AiService.getBibleWisdom settings apiKey api fetched).1.error = some m →
        allFieldsPresent (AiService.getBibleWisdom settings apiKey api fetched).1) ∧
    ((∀ k c, api k = Except.ok (TextPayload.parsed c) →
          c.answer.isSome = true ∧ c.reference.isSome = true ∧
            c.topic.isSome = true ∧ c.explanation.isSome = true) →
      (∀ k, api k ≠ Except.ok TextPayload.missing) →
      (∀ k ok st c, fetched k = AiService.FetchOutcome.resp ok st (Except.ok c) →
          c.answer.isSome = true ∧ c.reference.isSome = true ∧
            c.topic.isSome = true ∧ c.explanation.isSome = true) →
      allFieldsPresent (AiService.getBibleWisdom settings apiKey api fetched).1) := by
  cases hsp : settings.provider with
  | ollama =>
    have hroute : (AiService.getBibleWisdom settings apiKey api fetched).1
        = (AiService.getOllamaWisdom fetched).1 := by
      simp [AiService.getBibleWisdom, hsp]
    rw [hroute]
    rcases ollama_result_cases fetched with h | ⟨c, hc, st, hf⟩
    · rw [h]
      exact ⟨fun m _ => by simp [allFieldsPresent, AiService.ollamaErrorResult],
        fun _ _ _ => by simp [allFieldsPresent, AiService.ollamaErrorResult]⟩
    · rw [hc]
      refine ⟨fun m hm => by simp at hm, ?_⟩
      intro h1 h2 h3
      have := h3 0 true st c hf
      simpa [allFieldsPresent] using this
  | gemini =>
    have hroute : (AiService.getBibleWisdom settings apiKey api fetched).1
        = (AiService.getGeminiWisdom apiKey api).1 := by
      simp [AiService.getBibleWisdom, hsp]
    rw [hroute]
    rcases aiService_gemini_result_cases apiKey api with
      ⟨hr, _⟩ | ⟨msg, hr⟩ | ⟨hr, k, hk⟩ | ⟨c, hr, k, hk⟩
    · rw [hr]
      exact ⟨fun m _ => by simp [allFieldsPresent, AiService.configResult],
        fun _ _ _ => by simp [allFieldsPresent, AiService.configResult]⟩
    · rw [hr]
      exact ⟨fun m _ => by simp [allFieldsPresent, AiService.catchResult],
        fun _ _ _ => by simp [allFieldsPresent, AiService.catchResult]⟩
    · rw [hr]
      refine ⟨fun m hm => by simp at hm, ?_⟩
      intro h1 h2 h3
      exact absurd hk (h2 k)
    · rw [hr]
      refine ⟨fun m hm => by simp at hm, ?_⟩
      intro h1 h2 h3
      have := h1 k c hk
      simpa [allFieldsPresent] using this

/-- Witness for C5 (amended): with no credential the dispatcher's cloud path
yields an error-flagged result whose four content fields are all present. -/
theorem dispatch_no_throw_shape_witness :
    allFieldsPresent (AiService.getBibleWisdom ⟨AiService.AiProvider.gemini, "h", "m"⟩ ""
        (fun _ => Except.error "boom") (fun _ => AiService.FetchOutcome.reject "x")).1 :=
  (dispatch_no_throw_shape ⟨AiService.AiProvider.gemini, "h", "m"⟩ ""
      (fun _ => Except.error "boom") (fun _ => AiService.FetchOutcome.reject "x")).1
    "Gemini API Key missing." rfl

/-- Claim C6: the dispatcher performs pure routing: when the provider is the
local one the outcome is exactly the local client's and the cloud transport
is never invoked, and otherwise the outcome is exactly the cloud client's and
the local transport is never invoked. -/
theorem dispatcher_pure_routing (settings : AiService.AiSettings) (apiKey : String)
    (api : Nat → Except String TextPayload) (fetched : Nat → AiService.FetchOutcome) :
    (settings.provider = AiService.AiProvider.ollama →
        AiService.getBibleWisdom settings apiKey api fetched
          = ((AiService.getOllamaWisdom fetched).1, 0, (AiService.getOllamaWisdom fetched).2)) ∧
    (settings.provider = AiService.AiProvider.gemini →
        AiService.getBibleWisdom settings apiKey api fetched
          = ((AiService.getGeminiWisdom apiKey api).1, (AiService.getGeminiWisdom apiKey api).2, 0)) := by
  constructor <;> intro h <;> simp [AiService.getBibleWisdom, h]

/-- Witness for C6: a concrete local-provider configuration routes to the
local client with zero cloud-transport invocations. -/
theorem dispatcher_pure_routing_witness :
    AiService.getBibleWisdom ⟨AiService.AiProvider.ollama, "http:", "llama"⟩ "key"
        (fun _ => Except.error "x") (fun _ => AiService.FetchOutcome.reject "refused")
      = ((AiService.getOllamaWisdom (fun _ => AiService.FetchOutcome.reject "refused")).1, 0,
         (AiService.getOllamaWisdom (fun _ => AiService.FetchOutcome.reject "refused")).2) :=
  (dispatcher_pure_routing ⟨AiService.AiProvider.ollama, "http:", "llama"⟩ "key"
      (fun _ => Except.error "x") (fun _ => AiService.FetchOutcome.reject "refused")).1 rfl

/-- Claim C7: with no configured credential both cloud clients return the
structured configuration-error result with zero transport invocations (so no
retry policy runs and nothing is raised). -/
theorem missing_key_config_error (api : Nat → Except String TextPayload)
    (jitter : Nat → Nat) :
    GeminiService.getBibleWisdom "" api jitter = (GeminiService.configResult, 0) ∧
    GeminiService.configResult.error = some "API Key is missing." ∧
    AiService.getGeminiWisdom "" api = (AiService.configResult, 0) ∧
    AiService.configResult.error = some "Gemini API Key missing." :=
  ⟨rfl, rfl, rfl, rfl⟩

/-- Claim C8: the local-model client makes exactly one fetch per dispatch for
every transport behavior (so the retry policy never applies), and every
failure — rejected fetch, non-ok HTTP status, or content-parse failure —
resolves to the structured local connectivity/configuration error result. -/
theorem ollama_single_post_no_retry (fetched : Nat → AiService.FetchOutcome) :
    (AiService.getOllamaWisdom fetched).2 = 1 ∧
    (∀ msg, fetched 0 = AiService.FetchOutcome.reject msg →
        (AiService.getOllamaWisdom fetched).1 = AiService.ollamaErrorResult) ∧
    (∀ st pc, fetched 0 = AiService.FetchOutcome.resp false st pc →
        (AiService.getOllamaWisdom fetched).1 = AiService.ollamaErrorResult) ∧
    (∀ st msg, fetched 0 = AiService.FetchOutcome.resp true st (Except.error msg) →
        (AiService.getOllamaWisdom fetched).1 = AiService.ollamaErrorResult) ∧
    AiService.ollamaErrorResult.error
      = some "Could not connect to Ollama. Ensure Ollama is running and OLLAMA_ORIGINS='*' is set." := by
  refine ⟨?_, ?_, ?_, ?_, rfl⟩
  · cases hf : fetched 0 with
    | reject m => simp [AiService.getOllamaWisdom, hf]
    | resp ok st content =>
      cases ok with
      | false => simp [AiService.getOllamaWisdom, hf]
      | true => cases content <;> simp [AiService.getOllamaWisdom, hf]
  · intro msg hf
    simp [AiService.getOllamaWisdom, hf]
  · intro st pc hf
    simp [AiService.getOllamaWisdom, hf]
  · intro st msg hf
    simp [AiService.getOllamaWisdom, hf]

/-- Witness for C8 at a rejected fetch (local server unreachable). -/
theorem ollama_single_post_no_retry_witness :
    (AiService.getOllamaWisdom (fun _ => AiService.FetchOutcome.reject "ECONNREFUSED")).2 = 1 ∧
    (AiService.getOllamaWisdom (fun _ => AiService.FetchOutcome.reject "ECONNREFUSED")).1
      = AiService.ollamaErrorResult :=
  ⟨(ollama_single_post_no_retry (fun _ => AiService.FetchOutcome.reject "ECONNREFUSED")).1,
   (ollama_single_post_no_retry (fun _ => AiService.FetchOutcome.reject "ECONNREFUSED")).2.1
      "ECONNREFUSED" rfl⟩

/-- Counterexample to claim C9 as stated: the missing-key error result of the
cloud client populates the answer field with a non-empty placeholder while
the error field is also populated, so the "exactly one of the two" invariant
with absent content fields fails. -/
theorem error_result_with_populated_content :
    (GeminiService.getBibleWisdom "" (fun _ => Except.ok TextPayload.missing)
        (fun _ => 0)).1.error = some "API Key is missing." ∧
    (GeminiService.getBibleWisdom "" (fun _ => Except.ok TextPayload.missing)
        (fun _ => 0)).1.answer = some "Error" ∧
    ("Error" : String) ≠ "" := by
  exact ⟨rfl, rfl, by decide⟩

/-- Claim C9 (amended): for `geminiService.getBibleWisdom` a result without
error has non-empty answer, reference and topic and a present (possibly
empty) explanation, while a result with error carries a non-empty message,
empty reference and explanation, and placeholder (non-empty) answer and
topic; a local-client result with error is exactly the structured local
error result (the local success path may pass empty provider fields
through). -/
theorem result_wellformedness (apiKey : String)
    (api : Nat → Except String TextPayload) (jitter : Nat → Nat)
    (fetched : Nat → AiService.FetchOutcome) :
    ((GeminiService.getBibleWisdom apiKey api jitter).1.error = none →
        populatedField (GeminiService.getBibleWisdom apiKey api jitter).1.answer ∧
        populatedField (GeminiService.getBibleWisdom apiKey api jitter).1.reference ∧
        populatedField (GeminiService.getBibleWisdom apiKey api jitter).1.topic ∧
        (GeminiService.getBibleWisdom apiKey api jitter).1.explanation.isSome = true) ∧
    (∀ m, (GeminiService.getBibleWisdom apiKey api jitter).1.error = some m →
        populatedField (GeminiService.getBibleWisdom apiKey api jitter).1.answer ∧
        populatedField (GeminiService.getBibleWisdom apiKey api jitter).1.topic ∧
        (GeminiService.getBibleWisdom apiKey api jitter).1.reference = some "" ∧
        (GeminiService.getBibleWisdom apiKey api jitter).1.explanation = some "" ∧
        m ≠ "") ∧
    (∀ m, (AiService.getOllamaWisdom fetched).1.error = some m →
        (AiService.getOllamaWisdom fetched).1 = AiService.ollamaErrorResult) := by
  refine ⟨?_, ?_, ?_⟩
  · intro herr
    rcases geminiService_result_cases apiKey api jitter with ⟨hr, _⟩ | ⟨msg, hr⟩ | ⟨c, hr⟩
    · rw [hr] at herr
      simp [GeminiService.configResult] at herr
    · rw [hr] at herr
      simp [GeminiService.errorResult] at herr
    · rw [hr]
      refine ⟨⟨_, rfl, jsOr_ne_empty _ _ (by decide)⟩,
        ⟨_, rfl, jsOr_ne_empty _ _ (by decide)⟩,
        ⟨_, rfl, jsOr_ne_empty _ _ (by decide)⟩, rfl⟩
  · intro m hm
    rcases geminiService_result_cases apiKey api jitter with ⟨hr, _⟩ | ⟨msg, hr⟩ | ⟨c, hr⟩
    · rw [hr] at hm ⊢
      simp only [GeminiService.configResult, Option.some.injEq] at hm
      exact ⟨⟨"Error", rfl, by decide⟩, ⟨"Config", rfl, by decide⟩, rfl, rfl,
        by rw [← hm]; decide⟩
    · rw [hr] at hm ⊢
      simp only [GeminiService.errorResult, Option.some.injEq] at hm
      exact ⟨⟨"Connection Issue", rfl, by decide⟩, ⟨"Error", rfl, by decide⟩, rfl, rfl,
        by rw [← hm]; exact classifyError_ne_empty msg⟩
    · rw [hr] at hm
      simp [GeminiService.successResult] at hm
  · intro m hm
    rcases ollama_result_cases fetched with h | ⟨c, hc, st, hf⟩
    · exact h
    · rw [hc] at hm
      simp at hm

/-- Witness for C9 (amended): a success with an entirely empty payload still
has all three leading content fields populated with the fallbacks, and the
missing-key error result satisfies the error-side shape. -/
theorem result_wellformedness_witness :
    populatedField (GeminiService.getBibleWisdom "key"
        (fun _ => Except.ok TextPayload.missing) (fun _ => 0)).1.answer ∧
    populatedField (GeminiService.getBibleWisdom "key"
        (fun _ => Except.ok TextPayload.missing) (fun _ => 0)).1.topic ∧
    (GeminiService.getBibleWisdom "" (fun _ => Except.ok TextPayload.missing)
        (fun _ => 0)).1.reference = some "" := by
  have h1 := (result_wellformedness "key" (fun _ => Except.ok TextPayload.missing)
      (fun _ => 0) (fun _ => AiService.FetchOutcome.reject "x")).1 rfl
  have h2 := (result_wellformedness "" (fun _ => Except.ok TextPayload.missing)
      (fun _ => 0) (fun _ => AiService.FetchOutcome.reject "x")).2.1
      "API Key is missing." rfl
  exact ⟨h1.1, h1.2.2.1, h2.2.2.1⟩

end BibleWisdom
